import Mathlib

/-!
Verification of `boto/ec2/cloudwatch/alarm.py`.

A shallow embedding of the `MetricAlarm` and `AlarmHistoryItem` classes of
`boto/ec2/cloudwatch/alarm.py`, together with theorems settling the frozen
claims about the module.

Modelling conventions:
* Python `None`-able attributes become `Option` fields.
* Python exceptions become `Except (PyErr × σ) σ`: an error carries the kind
  of exception together with the state of the object at the moment the
  exception is raised (Python mutations made before the raise survive it).
* Python object identity of the growable action sequences is modelled by an
  allocation counter `nextId` carried in the record and an `objId` stamped on
  every `ListElement`; a fresh allocation takes the current counter and bumps
  it, so distinct allocations have distinct ids.
* Python floats reaching `float(...)` are modelled as rationals; none of the
  claims exercises floating-point rounding.
-/

namespace Alarm

/-- Kinds of Python exception the embedded code can raise. -/
inductive PyErr where
  | keyError
  | valueError
  | attributeError
  deriving DecidableEq, Repr

/-- Modelled from the spec: the growable action sequence type
(`boto.ec2.cloudwatch.listelement.ListElement`, whose source file is not under
`src/`).  The spec describes it as an ordered, independently growable sequence
of action-identifier strings; `startElement` installs "a fresh empty growable
sequence".  `items` holds the sequence and `objId` models Python object
identity (two sequences are the same Python object iff their ids coincide). -/
structure ListElement where
  objId : Nat
  items : List String
  deriving DecidableEq, Repr

/-- The value stored in `actions_enabled`: the constructor stores the integers
`0`/`1`, while `endElement` stores the raw leaf string and the `add_*_action`
methods store the string `'true'`. -/
inductive PyScalar where
  | pyInt (n : Int)
  | pyStr (s : String)
  deriving DecidableEq, Repr

/-- Embeds `MetricAlarm._cmp_map.get k`: the symbolic-to-wire comparison-operator
dictionary of `alarm.py` (lines 38-44), looked up with `dict.get` (missing key
gives `None`). -/
def cmpMapGet (k : String) : Option String :=
  if k == ">=" then some "GreaterThanOrEqualToThreshold"
  else if k == ">" then some "GreaterThanThreshold"
  else if k == "<" then some "LessThanThreshold"
  else if k == "<=" then some "LessThanOrEqualToThreshold"
  else none

/-- Embeds `MetricAlarm._rev_cmp_map.get k`: the reverse dictionary, built in
`alarm.py` by swapping every pair of `_cmp_map`. -/
def revCmpMapGet (k : String) : Option String :=
  if k == "GreaterThanOrEqualToThreshold" then some ">="
  else if k == "GreaterThanThreshold" then some ">"
  else if k == "LessThanThreshold" then some "<"
  else if k == "LessThanOrEqualToThreshold" then some "<="
  else none

/-- The four wire-form comparison operator strings (the values of `_cmp_map`). -/
def wireForms : List String :=
  ["GreaterThanOrEqualToThreshold", "GreaterThanThreshold",
   "LessThanThreshold", "LessThanOrEqualToThreshold"]

/-- The four symbolic comparison operator strings (the keys of `_cmp_map`). -/
def symForms : List String := [">=", ">", "<", "<="]

/-- The dimensions argument is passed through unchanged by `__init__`; the
spec types it as an ordered sequence of name-to-values mappings. -/
abbrev Dimensions := List (String × List String)

/-- The state of a `MetricAlarm` instance: one field per Python attribute the
class ever assigns.  `extra` models the dynamic attributes created by the
`setattr(self, name, value)` fallback of `endElement` for node names outside
the dispatch table (in Python a fallback name that happens to equal a real
attribute would overwrite it; no such name occurs in the claims).  `nextId` is
the allocation counter for `ListElement` object identities (not a Python
attribute).  The connection back-reference is modelled as an opaque handle;
delegated operations receive the collaborator explicitly. -/
structure MetricAlarm where
  name : Option String
  connection : Option Nat
  metric : Option String
  nameSpace : Option String
  statistic : Option String
  threshold : Option Rat
  comparison : Option String
  period : Option Int
  evaluation_periods : Option Int
  actions_enabled : PyScalar
  alarm_arn : Option String
  last_updated : Option String
  description : String
  dimensions : Option Dimensions
  insufficient_data_actions : ListElement
  ok_actions : ListElement
  state_reason : Option String
  state_value : Option String
  unit : Option String
  alarm_actions : Option ListElement
  extra : List (String × String)
  nextId : Nat
  deriving DecidableEq, Repr

/-- Embeds `MetricAlarm.__init__` (alarm.py lines 46-135).  Every keyword argument
defaults to `None` (`none` here).  Field assignments follow the source:
`threshold` is coerced with `float(...)` when given, `comparison` is looked up
in `_cmp_map` with `.get` (an unknown symbol silently yields `None`),
`period`/`evaluation_periods` are coerced with `int(...)` when given,
`actions_enabled` becomes `int(1)` iff the argument `is True` and `int(0)`
otherwise, `description` defaults to the empty string,
`insufficient_data_actions` and `ok_actions` start as fresh empty growable
sequences, and `alarm_actions` becomes a growable sequence iff an initial
`alarm_action` was given, else `None`.  (`ListElement(alarm_action)` is
modelled from the spec as the sequence seeded with that initial action, the
`listelement` source file being absent from `src/`.) -/
def MetricAlarm.init (connection : Option Nat) (name : Option String)
    (metric : Option String) (nameSpace : Option String)
    (statistic : Option String) (comparison : Option String)
    (threshold : Option Rat) (period : Option Int)
    (evaluation_periods : Option Int) (actions_enabled : Option Bool)
    (alarm_action : Option String) (dimensions : Option Dimensions) :
    MetricAlarm :=
  { name := name
    connection := connection
    metric := metric
    nameSpace := nameSpace
    statistic := statistic
    threshold := threshold
    comparison := comparison.bind cmpMapGet
    period := period
    evaluation_periods := evaluation_periods
    actions_enabled := .pyInt (if actions_enabled = some true then 1 else 0)
    alarm_arn := none
    last_updated := none
    description := ""
    dimensions := dimensions
    insufficient_data_actions := ⟨0, []⟩
    ok_actions := ⟨1, []⟩
    state_reason := none
    state_value := none
    unit := none
    alarm_actions := alarm_action.map fun a => ⟨2, [a]⟩
    extra := []
    nextId := 3 }

/-- The numeric value of a non-empty string of decimal digits. -/
def natOfDigits (ds : List Char) : Nat :=
  ds.foldl (fun acc c => acc * 10 + (c.toNat - 48)) 0

/-- Models Python `int(value)` on the leaf string: after stripping
whitespace, an optional sign followed by at least one decimal digit; anything
else raises `ValueError`. -/
def pyIntOfString (s : String) : Option Int :=
  let t := s.trim.data
  let core : List Char → Option Int := fun ds =>
    if ds ≠ [] ∧ ds.all Char.isDigit then some (natOfDigits ds) else none
  match t with
  | '-' :: rest => (core rest).map (fun n => -n)
  | '+' :: rest => core rest
  | _ => core t

/-- Models Python `float(value)` on the leaf string, restricted to the plain
decimal forms (optional sign, digits, optional point and fractional digits)
that the wire format uses; exponent and special forms are out of scope for
every claim. -/
def pyFloatOfString (s : String) : Option Rat :=
  let t := s.trim.data
  let core : List Char → Option Rat := fun ds =>
    match ds.splitOn '.' with
    | [whole] =>
        if whole ≠ [] ∧ whole.all Char.isDigit then some (natOfDigits whole) else none
    | [whole, frac] =>
        if (whole ≠ [] ∨ frac ≠ []) ∧ whole.all Char.isDigit ∧ frac.all Char.isDigit then
          some ((natOfDigits whole : Rat) + (natOfDigits frac : Rat) / ((10 : Rat) ^ frac.length))
        else none
    | _ => none
  match t with
  | '-' :: rest => (core rest).map (fun q => -q)
  | '+' :: rest => core rest
  | _ => core t

/-- Embeds `MetricAlarm.startElement` (alarm.py lines 142-153): entering one of the
three action-list container nodes installs a fresh empty `ListElement` as the
corresponding field and returns that same object as the nested parse context;
every other name falls through to `pass` (no context returned, state
untouched).  The `attrs` and `connection` parameters of the Python signature
are unused by the body and omitted here.  Freshness of the allocation is
modelled by stamping the current `nextId` and bumping the counter. -/
def MetricAlarm.startElement (a : MetricAlarm) (name : String) :
    Option ListElement × MetricAlarm :=
  if name == "AlarmActions" then
    let le : ListElement := ⟨a.nextId, []⟩
    (some le, { a with alarm_actions := some le, nextId := a.nextId + 1 })
  else if name == "InsufficientDataActions" then
    let le : ListElement := ⟨a.nextId, []⟩
    (some le, { a with insufficient_data_actions := le, nextId := a.nextId + 1 })
  else if name == "OKActions" then
    let le : ListElement := ⟨a.nextId, []⟩
    (some le, { a with ok_actions := le, nextId := a.nextId + 1 })
  else
    (none, a)

/-- Embeds `MetricAlarm.endElement` (alarm.py lines 155-187): exact-name dispatch
assigning the leaf string to the matching field.  `ComparisonOperator` stores
`_rev_cmp_map[value]` (KeyError on an unknown wire value, raised before any
assignment), `EvaluationPeriods`/`Period` store `int(value)` and `Threshold`
stores `float(value)` (ValueError on a malformed number, raised before any
assignment), and any unrecognized name falls back to
`setattr(self, name, value)`, modelled by consing onto `extra`. -/
def MetricAlarm.endElement (a : MetricAlarm) (name value : String) :
    Except (PyErr × MetricAlarm) MetricAlarm :=
  if name == "ActionsEnabled" then .ok { a with actions_enabled := .pyStr value }
  else if name == "AlarmArn" then .ok { a with alarm_arn := some value }
  else if name == "AlarmConfigurationUpdatedTimestamp" then
    .ok { a with last_updated := some value }
  else if name == "AlarmDescription" then .ok { a with description := value }
  else if name == "AlarmName" then .ok { a with name := some value }
  else if name == "ComparisonOperator" then
    match revCmpMapGet value with
    | some sym => .ok { a with comparison := some sym }
    | none => .error (.keyError, a)
  else if name == "EvaluationPeriods" then
    match pyIntOfString value with
    | some n => .ok { a with evaluation_periods := some n }
    | none => .error (.valueError, a)
  else if name == "MetricName" then .ok { a with metric := some value }
  else if name == "Namespace" then .ok { a with nameSpace := some value }
  else if name == "Period" then
    match pyIntOfString value with
    | some n => .ok { a with period := some n }
    | none => .error (.valueError, a)
  else if name == "StateReason" then .ok { a with state_reason := some value }
  else if name == "StateValue" then .ok { a with state_value := some value }
  else if name == "Statistic" then .ok { a with statistic := some value }
  else if name == "Threshold" then
    match pyFloatOfString value with
    | some q => .ok { a with threshold := some q }
    | none => .error (.valueError, a)
  else if name == "Unit" then .ok { a with unit := some value }
  else .ok { a with extra := (name, value) :: a.extra }

/-- Embeds `MetricAlarm.add_alarm_action` (alarm.py lines 219-231): a falsy argument
(`None` or the empty string) returns immediately with no mutation; otherwise
`actions_enabled` is set to the string `'true'` and the argument is appended
to `self.alarm_actions`.  When `alarm_actions` is `None` the append raises
`AttributeError` — after the `actions_enabled` mutation already happened. -/
def MetricAlarm.add_alarm_action (a : MetricAlarm) (action_arn : Option String) :
    Except (PyErr × MetricAlarm) MetricAlarm :=
  match action_arn with
  | none => .ok a
  | some s =>
    if s == "" then .ok a
    else
      let a' := { a with actions_enabled := PyScalar.pyStr "true" }
      match a'.alarm_actions with
      | none => .error (.attributeError, a')
      | some le =>
          .ok { a' with alarm_actions := some { le with items := le.items ++ [s] } }

/-- Embeds `MetricAlarm.add_insufficient_data_action` (alarm.py lines 233-246): same
shape as `add_alarm_action`, but `insufficient_data_actions` always exists, so
the append cannot fail. -/
def MetricAlarm.add_insufficient_data_action (a : MetricAlarm)
    (action_arn : Option String) : MetricAlarm :=
  match action_arn with
  | none => a
  | some s =>
    if s == "" then a
    else
      { a with actions_enabled := PyScalar.pyStr "true",
               insufficient_data_actions :=
                 { a.insufficient_data_actions with
                     items := a.insufficient_data_actions.items ++ [s] } }

/-- Embeds `MetricAlarm.add_ok_action` (alarm.py lines 248-259): same shape as
`add_insufficient_data_action`, targeting `ok_actions`. -/
def MetricAlarm.add_ok_action (a : MetricAlarm)
    (action_arn : Option String) : MetricAlarm :=
  match action_arn with
  | none => a
  | some s =>
    if s == "" then a
    else
      { a with actions_enabled := PyScalar.pyStr "true",
               ok_actions := { a.ok_actions with items := a.ok_actions.items ++ [s] } }

/-- A call made to the connection collaborator, with the argument values the
source passes (signatures from the connection contract).  Date, record-count
and token arguments of `describe_alarm_history` are opaque pass-throughs,
modelled as optional strings. -/
inductive ConnCall where
  | set_alarm_state (name : Option String) (reason value : String) (data : Option String)
  | update_alarm (a : MetricAlarm)
  | enable_alarm_actions (names : List (Option String))
  | disable_alarm_actions (names : List (Option String))
  | describe_alarm_history (name start_date end_date max_records
      history_item_type next_token : Option String)
  | delete_alarms (alarms : List MetricAlarm)
  deriving DecidableEq, Repr

/-- The connection collaborator's behaviour: what each call returns (its
failure behaviour is external to this module). -/
abbrev Connection (ρ : Type) := ConnCall → ρ

/-- The observable outcome of a delegated operation: the calls it made to the
collaborator, in order, and the Python return value of the method (`none`
models returning Python `None`, `some r` returning the collaborator's
result). -/
abbrev Delegated (ρ : Type) := List ConnCall × Option ρ

/-- Embeds `MetricAlarm.set_state` (alarm.py lines 189-217): returns
`connection.set_alarm_state(self.name, reason, value, data)` (note the
argument order). -/
def MetricAlarm.set_state {ρ : Type} (conn : Connection ρ) (a : MetricAlarm)
    (value reason : String) (data : Option String) : Delegated ρ :=
  ([.set_alarm_state a.name reason value data],
   some (conn (.set_alarm_state a.name reason value data)))

/-- Embeds `MetricAlarm.update`: returns
`connection.update_alarm(self)`. -/
def MetricAlarm.update {ρ : Type} (conn : Connection ρ) (a : MetricAlarm) : Delegated ρ :=
  ([.update_alarm a], some (conn (.update_alarm a)))

/-- Embeds `MetricAlarm.enable_actions`: returns
`connection.enable_alarm_actions([self.name])`. -/
def MetricAlarm.enable_actions {ρ : Type} (conn : Connection ρ) (a : MetricAlarm) :
    Delegated ρ :=
  ([.enable_alarm_actions [a.name]], some (conn (.enable_alarm_actions [a.name])))

/-- Embeds `MetricAlarm.disable_actions`: returns
`connection.disable_alarm_actions([self.name])`. -/
def MetricAlarm.disable_actions {ρ : Type} (conn : Connection ρ) (a : MetricAlarm) :
    Delegated ρ :=
  ([.disable_alarm_actions [a.name]], some (conn (.disable_alarm_actions [a.name])))

/-- Embeds `MetricAlarm.describe_history`: returns
`connection.describe_alarm_history(self.name, start_date, end_date,
max_records, history_item_type, next_token)`. -/
def MetricAlarm.describe_history {ρ : Type} (conn : Connection ρ) (a : MetricAlarm)
    (start_date end_date max_records history_item_type next_token : Option String) :
    Delegated ρ :=
  ([.describe_alarm_history a.name start_date end_date max_records
      history_item_type next_token],
   some (conn (.describe_alarm_history a.name start_date end_date max_records
      history_item_type next_token)))

/-- Embeds `MetricAlarm.delete` (alarm.py lines 261-262): calls
`connection.delete_alarms([self])` but has no `return` statement, so the
method itself returns Python `None`. -/
def MetricAlarm.delete {ρ : Type} (conn : Connection ρ) (a : MetricAlarm) : Delegated ρ :=
  let _ := conn (.delete_alarms [a])
  ([.delete_alarms [a]], none)

/-- A date-time value as produced by `datetime.strptime`. -/
structure PyDatetime where
  year : Nat
  month : Nat
  day : Nat
  hour : Nat
  minute : Nat
  second : Nat
  microsecond : Nat
  deriving DecidableEq, Repr

/-- Take at most `n` leading decimal digits (greedily), returning them and the
rest of the input. -/
def takeDigits : Nat → List Char → List Char × List Char
  | 0, cs => ([], cs)
  | _ + 1, [] => ([], [])
  | n + 1, c :: cs =>
    if c.isDigit then
      let p := takeDigits n cs
      (c :: p.1, p.2)
    else ([], c :: cs)

/-- Consume one expected literal character. -/
def expectChar (c : Char) : List Char → Option (List Char)
  | [] => none
  | d :: cs => if d = c then some cs else none

/-- Parse a run of one to `maxLen` digits whose value lies in `[lo, hi]`.
Greedy matching is equivalent to the backtracking regex `strptime` uses for
this format, because every numeric field here is followed by a non-digit
literal (or the end of input): a shorter match would leave a digit where the
literal must be. -/
def parseBounded (maxLen lo hi : Nat) (cs : List Char) : Option (Nat × List Char) :=
  let p := takeDigits maxLen cs
  if p.1 ≠ [] ∧ lo ≤ natOfDigits p.1 ∧ natOfDigits p.1 ≤ hi then
    some (natOfDigits p.1, p.2)
  else none

/-- Gregorian leap year, as Python's `calendar`/`datetime` define it. -/
def isLeapYear (y : Nat) : Bool :=
  y % 4 == 0 && (y % 100 != 0 || y % 400 == 0)

/-- Number of days in a month, as Python's `datetime` validates it. -/
def daysInMonth (y m : Nat) : Nat :=
  if m == 2 then (if isLeapYear y then 29 else 28)
  else if m == 4 || m == 6 || m == 9 || m == 11 then 30
  else 31

/-- Models `datetime.strptime(value, '%Y-%m-%dT%H:%M:%S.%fZ')`: four digits of
year, then literal `-`, month, `-`, day, `T`, hour, `:`, minute, `:`, second,
`.`, one to six digits of fraction (scaled to microseconds), literal `Z`, and
nothing after it.  Field ranges and the calendar validation (month 1-12, day
valid for the month and year, hour 0-23, minute/second 0-59, year at least 1)
follow CPython's `_strptime` and the `datetime` constructor; any mismatch
raises `ValueError`, modelled as `none`. -/
def strptimeAlarmFormat (s : String) : Option PyDatetime := do
  let cs := s.data
  let p := takeDigits 4 cs
  if p.1.length ≠ 4 then none else
  let year := natOfDigits p.1
  let cs ← expectChar '-' p.2
  let (month, cs) ← parseBounded 2 1 12 cs
  let cs ← expectChar '-' cs
  let (day, cs) ← parseBounded 2 1 31 cs
  let cs ← expectChar 'T' cs
  let (hour, cs) ← parseBounded 2 0 23 cs
  let cs ← expectChar ':' cs
  let (minute, cs) ← parseBounded 2 0 59 cs
  let cs ← expectChar ':' cs
  let (second, cs) ← parseBounded 2 0 59 cs
  let cs ← expectChar '.' cs
  let f := takeDigits 6 cs
  if f.1 = [] then none else
  let microsecond := natOfDigits f.1 * 10 ^ (6 - f.1.length)
  let cs ← expectChar 'Z' f.2
  if cs ≠ [] then none else
  if year = 0 then none else
  if daysInMonth year month < day then none else
  some ⟨year, month, day, hour, minute, second, microsecond⟩

/-- The state of an `AlarmHistoryItem` instance, parametrised by the type `J`
of decoded JSON values (the decoder itself is the external `json` library,
passed to `endElement` as a parameter).  `__init__` sets only `connection`;
the other attributes are unset until a callback assigns them, hence `Option`.
Note the source assigns the misspelled attribute `tem_type`; `item_type` — the
attribute named by the spec's data model — is carried here as well to record
that no code path ever assigns it (in Python it simply never exists). -/
structure AlarmHistoryItem (J : Type) where
  connection : Option Nat
  name : Option String
  data : Option J
  tem_type : Option String
  item_type : Option String
  summary : Option String
  timestamp : Option PyDatetime
  deriving DecidableEq, Repr

/-- Embeds `AlarmHistoryItem.__init__` (alarm.py lines 264-266). -/
def AlarmHistoryItem.init {J : Type} (connection : Option Nat) :
    AlarmHistoryItem J :=
  { connection := connection
    name := none
    data := none
    tem_type := none
    item_type := none
    summary := none
    timestamp := none }

/-- Embeds `AlarmHistoryItem.endElement` (alarm.py lines 274-284): exact-name
dispatch with no fallback branch (an unmatched name assigns nothing).
`HistoryData` stores `json.loads(value)` (`jsonLoads` is the external
decoder; a decode error propagates), `HistoryItemType` stores the value into
the misspelled attribute `tem_type`, and `Timestamp` stores
`datetime.strptime(value, '%Y-%m-%dT%H:%M:%S.%fZ')` (ValueError on a
mismatch, raised before any assignment). -/
def AlarmHistoryItem.endElement {J : Type} (jsonLoads : String → Except PyErr J)
    (it : AlarmHistoryItem J) (name value : String) :
    Except (PyErr × AlarmHistoryItem J) (AlarmHistoryItem J) :=
  if name == "AlarmName" then .ok { it with name := some value }
  else if name == "HistoryData" then
    match jsonLoads value with
    | .ok j => .ok { it with data := some j }
    | .error e => .error (e, it)
  else if name == "HistoryItemType" then .ok { it with tem_type := some value }
  else if name == "HistorySummary" then .ok { it with summary := some value }
  else if name == "Timestamp" then
    match strptimeAlarmFormat value with
    | some d => .ok { it with timestamp := some d }
    | none => .error (.valueError, it)
  else .ok it

/-- States that every `ListElement` identity in the record lies below the
allocation counter; true of every record the embedded operations build, and
exactly what makes the next allocation fresh. -/
def MetricAlarm.idBound (a : MetricAlarm) : Bool :=
  decide (a.insufficient_data_actions.objId < a.nextId) &&
  decide (a.ok_actions.objId < a.nextId) &&
  a.alarm_actions.all (fun le => decide (le.objId < a.nextId))

/-- C1: for every symbolic comparison operator among `>=`, `>`, `<`, `<=`,
constructing a `MetricAlarm` with that operator stores the corresponding
wire-form string in the comparison field, and the reverse lookup map sends the
stored value back to the original symbolic operator. -/
theorem c1_comparison_roundtrip (connection : Option Nat)
    (name metric nameSpace statistic : Option String) (threshold : Option Rat)
    (period evaluation_periods : Option Int) (actions_enabled : Option Bool)
    (alarm_action : Option String) (dimensions : Option Dimensions)
    (op : String) (h : op ∈ symForms) :
    ∃ w, (MetricAlarm.init connection name metric nameSpace statistic (some op)
        threshold period evaluation_periods actions_enabled alarm_action
        dimensions).comparison = some w ∧ w ∈ wireForms ∧
      revCmpMapGet w = some op := by
  fin_cases h
  · exact ⟨"GreaterThanOrEqualToThreshold", rfl, by decide, rfl⟩
  · exact ⟨"GreaterThanThreshold", rfl, by decide, rfl⟩
  · exact ⟨"LessThanThreshold", rfl, by decide, rfl⟩
  · exact ⟨"LessThanOrEqualToThreshold", rfl, by decide, rfl⟩

/-- Witness for C1 at the symbolic operator `>` on an otherwise empty
construction. -/
theorem c1_comparison_roundtrip_witness :
    ∃ w, (MetricAlarm.init none none none none none (some ">") none none none
        none none none).comparison = some w ∧ w ∈ wireForms ∧
      revCmpMapGet w = some ">" :=
  c1_comparison_roundtrip none none none none none none none none none none
    none ">" (by decide)

/-- C2 counterexample: parsing the leaf node `ComparisonOperator` with the
wire value `GreaterThanThreshold` stores the symbolic operator `>` in the
comparison field, and `>` is not one of the four wire-form strings — so the
comparison field does not always hold a wire-form string. -/
theorem c2_counterexample :
    (((MetricAlarm.init none none none none none none none none none none none
          none).endElement "ComparisonOperator" "GreaterThanThreshold").toOption.map
        (fun a => a.comparison) = some (some ">")) ∧ ">" ∉ wireForms := by
  decide

/-- C2 amended: the constructor only ever stores a wire-form string in the
comparison field (or leaves it unset), while the `ComparisonOperator` parse
callback stores the symbolic operator obtained through the reverse map. -/
theorem c2_comparison_storage (connection : Option Nat)
    (name metric nameSpace statistic comparison : Option String)
    (threshold : Option Rat) (period evaluation_periods : Option Int)
    (actions_enabled : Option Bool) (alarm_action : Option String)
    (dimensions : Option Dimensions) (w : String)
    (hw : (MetricAlarm.init connection name metric nameSpace statistic
        comparison threshold period evaluation_periods actions_enabled
        alarm_action dimensions).comparison = some w)
    (a : MetricAlarm) (v sym : String) (hv : revCmpMapGet v = some sym) :
    w ∈ wireForms ∧
    a.endElement "ComparisonOperator" v =
      .ok { a with comparison := some sym } ∧
    sym ∈ symForms := by
  refine ⟨?_, ?_, ?_⟩
  · simp only [MetricAlarm.init] at hw
    cases comparison with
    | none => exact absurd hw (by simp)
    | some c =>
      simp only [Option.some_bind, cmpMapGet] at hw
      split_ifs at hw <;> (cases hw; decide)
  · have h0 : a.endElement "ComparisonOperator" v =
        (match revCmpMapGet v with
         | some s => Except.ok { a with comparison := some s }
         | none => Except.error (PyErr.keyError, a)) := rfl
    rw [h0, hv]
  · unfold revCmpMapGet at hv
    split_ifs at hv <;> (cases hv; decide)

/-- Witness for C2 amended: constructing with `>=` stores the wire form, and
parsing `GreaterThanThreshold` back stores the symbolic `>`. -/
theorem c2_comparison_storage_witness :
    "GreaterThanOrEqualToThreshold" ∈ wireForms ∧
    (MetricAlarm.init none none none none none none none none none none none
        none).endElement "ComparisonOperator" "GreaterThanThreshold" =
      .ok { MetricAlarm.init none none none none none none none none none none
              none none with comparison := some ">" } ∧
    ">" ∈ symForms :=
  c2_comparison_storage none none none none none (some ">=") none none none
    none none none "GreaterThanOrEqualToThreshold" (by decide)
    (MetricAlarm.init none none none none none none none none none none none
      none) "GreaterThanThreshold" ">" (by decide)

/-- C3 (code bug): the exit callback on a node named `HistoryItemType`
assigns the leaf text to the misspelled attribute `tem_type`; the `item_type`
field named by the spec's data model is never assigned by any code path. -/
theorem c3_item_type_assignment :
    ((AlarmHistoryItem.init none : AlarmHistoryItem Unit).endElement
        (fun _ => Except.ok ()) "HistoryItemType" "StateUpdate").toOption.map
      (fun it => (it.tem_type, it.item_type)) =
    some (some "StateUpdate", none) := by decide

/-- C4 counterexample: `delete()` has no return statement, so it returns
`None` rather than the value of `connection.delete_alarms([self])`; with a
collaborator whose `delete_alarms` returns `true`, the two differ. -/
theorem c4_counterexample :
    (MetricAlarm.delete (fun _ => true) (MetricAlarm.init none none none none
        none none none none none none none none)).2 ≠
      some ((fun _ => true : Connection Bool)
        (ConnCall.delete_alarms [MetricAlarm.init none none none none none
          none none none none none none none])) := by
  decide

/-- C4 amended: `set_state`, `update`, `enable_actions`, `disable_actions`
and `describe_history` each return exactly the collaborator's value for the
documented call; `delete` makes the call `delete_alarms([self])` but itself
returns `None`. -/
theorem c4_delegation {ρ : Type} (conn : Connection ρ) (a : MetricAlarm)
    (value reason : String)
    (data start_date end_date max_records history_item_type next_token :
      Option String) :
    a.set_state conn value reason data =
      ([ConnCall.set_alarm_state a.name reason value data],
       some (conn (ConnCall.set_alarm_state a.name reason value data))) ∧
    a.update conn =
      ([ConnCall.update_alarm a], some (conn (ConnCall.update_alarm a))) ∧
    a.enable_actions conn =
      ([ConnCall.enable_alarm_actions [a.name]],
       some (conn (ConnCall.enable_alarm_actions [a.name]))) ∧
    a.disable_actions conn =
      ([ConnCall.disable_alarm_actions [a.name]],
       some (conn (ConnCall.disable_alarm_actions [a.name]))) ∧
    a.describe_history conn start_date end_date max_records history_item_type
        next_token =
      ([ConnCall.describe_alarm_history a.name start_date end_date max_records
          history_item_type next_token],
       some (conn (ConnCall.describe_alarm_history a.name start_date end_date
          max_records history_item_type next_token))) ∧
    a.delete conn = ([ConnCall.delete_alarms [a]], none) :=
  ⟨rfl, rfl, rfl, rfl, rfl, rfl⟩

/-- C5: constructing a `MetricAlarm` with a comparison string that is not one
of the four symbolic operators raises no error (the embedded constructor is a
total function) and leaves the comparison field unset. -/
theorem c5_unknown_comparison_unset (connection : Option Nat)
    (name metric nameSpace statistic : Option String) (threshold : Option Rat)
    (period evaluation_periods : Option Int) (actions_enabled : Option Bool)
    (alarm_action : Option String) (dimensions : Option Dimensions)
    (s : String) (h : s ∉ symForms) :
    (MetricAlarm.init connection name metric nameSpace statistic (some s)
        threshold period evaluation_periods actions_enabled alarm_action
        dimensions).comparison = none := by
  simp only [symForms, List.mem_cons, List.not_mem_nil, or_false, not_or] at h
  obtain ⟨h1, h2, h3, h4⟩ := h
  simp [MetricAlarm.init, cmpMapGet, h1, h2, h3, h4]

/-- Witness for C5 at the unrecognized operator `==`. -/
theorem c5_unknown_comparison_unset_witness :
    (MetricAlarm.init none none none none none (some "==") none none none none
        none none).comparison = none :=
  c5_unknown_comparison_unset none none none none none none none none none
    none none "==" (by decide)

/-- C6: the exit callback on `ComparisonOperator` maps each of the four
wire-form strings to its symbolic operator, and any other leaf value raises a
`KeyError` that propagates to the caller with the record unchanged. -/
theorem c6_parse_comparison (a : MetricAlarm) (v : String)
    (hv : v ∉ wireForms) :
    a.endElement "ComparisonOperator" "GreaterThanOrEqualToThreshold" =
      .ok { a with comparison := some ">=" } ∧
    a.endElement "ComparisonOperator" "GreaterThanThreshold" =
      .ok { a with comparison := some ">" } ∧
    a.endElement "ComparisonOperator" "LessThanThreshold" =
      .ok { a with comparison := some "<" } ∧
    a.endElement "ComparisonOperator" "LessThanOrEqualToThreshold" =
      .ok { a with comparison := some "<=" } ∧
    a.endElement "ComparisonOperator" v = .error (.keyError, a) := by
  refine ⟨rfl, rfl, rfl, rfl, ?_⟩
  simp only [wireForms, List.mem_cons, List.not_mem_nil, or_false, not_or]
    at hv
  obtain ⟨h1, h2, h3, h4⟩ := hv
  have h0 : a.endElement "ComparisonOperator" v =
      (match revCmpMapGet v with
       | some sym => Except.ok { a with comparison := some sym }
       | none => Except.error (PyErr.keyError, a)) := rfl
  have hrev : revCmpMapGet v = none := by
    simp [revCmpMapGet, h1, h2, h3, h4]
  rw [h0, hrev]

/-- Witness for C6 at the unknown wire value `BogusOperator`. -/
theorem c6_parse_comparison_witness :
    (MetricAlarm.init none none none none none none none none none none none
        none).endElement "ComparisonOperator" "BogusOperator" =
      .error (.keyError, MetricAlarm.init none none none none none none none
        none none none none none) :=
  (c6_parse_comparison (MetricAlarm.init none none none none none none none
      none none none none none) "BogusOperator" (by decide)).2.2.2.2

/-- C7 counterexample: on an alarm constructed without an initial alarm
action, `add_alarm_action` with a non-empty ARN does not append — it raises
`AttributeError` (after having already set `actions_enabled` to `'true'`),
because `alarm_actions` is `None`. -/
theorem c7_counterexample :
    (MetricAlarm.init none none none none none none none none none none none
        none).add_alarm_action (some "arn:aws:sns:us-east-1:1234:topic") =
      .error (.attributeError,
        { MetricAlarm.init none none none none none none none none none none
            none none with actions_enabled := .pyStr "true" }) := rfl

/-- C7 amended: on a `MetricAlarm` whose `alarm_actions` sequence is present,
`add_alarm_action` with a falsy argument (`None` or the empty string) leaves
the record unchanged and raises no error, and with a non-empty string appends
exactly that string to `alarm_actions` and sets `actions_enabled` to the
string `'true'`; no connection method is invoked in either case (the
operation does not take the collaborator at all). -/
theorem c7_add_alarm_action (a : MetricAlarm) (le : ListElement) (s : String)
    (hle : a.alarm_actions = some le) (hs : s ≠ "") :
    a.add_alarm_action none = .ok a ∧
    a.add_alarm_action (some "") = .ok a ∧
    a.add_alarm_action (some s) =
      .ok { a with actions_enabled := .pyStr "true",
                   alarm_actions := some ⟨le.objId, le.items ++ [s]⟩ } := by
  refine ⟨rfl, rfl, ?_⟩
  simp [MetricAlarm.add_alarm_action, hs, hle]

/-- Witness for C7 amended: appending a second ARN to an alarm constructed
with one initial action. -/
theorem c7_add_alarm_action_witness :
    (MetricAlarm.init none none none none none none none none none none
        (some "arn:a") none).add_alarm_action (some "arn:b") =
      .ok { MetricAlarm.init none none none none none none none none none none
              (some "arn:a") none with
            actions_enabled := .pyStr "true",
            alarm_actions := some ⟨2, ["arn:a", "arn:b"]⟩ } :=
  (c7_add_alarm_action (MetricAlarm.init none none none none none none none
      none none none (some "arn:a") none) ⟨2, ["arn:a"]⟩ "arn:b" (by decide)
      (by decide)).2.2

/-- C8: entering a node named `AlarmActions` installs a fresh empty growable
sequence as the `alarm_actions` field and returns that very sequence as the
nested parse context; its identity differs from that of any sequence the
field held before; entering a node that is none of the three action-list
containers returns no nested context. -/
theorem c8_start_element (a : MetricAlarm) (n : String)
    (hid : a.idBound = true)
    (hn : n ≠ "AlarmActions" ∧ n ≠ "InsufficientDataActions" ∧
      n ≠ "OKActions") :
    (a.startElement "AlarmActions").1 = some ⟨a.nextId, []⟩ ∧
    (a.startElement "AlarmActions").2.alarm_actions = some ⟨a.nextId, []⟩ ∧
    (a.alarm_actions.all fun le => decide (le.objId ≠ a.nextId)) = true ∧
    (a.startElement n).1 = none := by
  refine ⟨rfl, rfl, ?_, ?_⟩
  · cases h : a.alarm_actions with
    | none => rfl
    | some le =>
      simp only [MetricAlarm.idBound, h, Option.all_some, Bool.and_eq_true,
        decide_eq_true_eq] at hid
      simp only [Option.all_some, decide_eq_true_eq]
      omega
  · obtain ⟨h1, h2, h3⟩ := hn
    simp [MetricAlarm.startElement, h1, h2, h3]

/-- Witness for C8 on an alarm holding a previously assigned action sequence,
entering `AlarmActions` and the unrelated node `Foo`. -/
theorem c8_start_element_witness :
    ((MetricAlarm.init none none none none none none none none none none
        (some "arn:a") none).startElement "AlarmActions").1 =
      some ⟨3, []⟩ ∧
    (((MetricAlarm.init none none none none none none none none none none
        (some "arn:a") none).startElement "AlarmActions").2.alarm_actions =
      some ⟨3, []⟩) ∧
    (((MetricAlarm.init none none none none none none none none none none
        (some "arn:a") none).alarm_actions.all fun le =>
          decide (le.objId ≠ 3)) = true) ∧
    ((MetricAlarm.init none none none none none none none none none none
        (some "arn:a") none).startElement "Foo").1 = none :=
  c8_start_element (MetricAlarm.init none none none none none none none none
      none none (some "arn:a") none) "Foo" (by decide) (by decide)

/-- C9: the exit callback on `Timestamp` parses the leaf text with the fixed
format `%Y-%m-%dT%H:%M:%S.%fZ`: a matching text stores the parsed date-time
value (the spec's example stores 2021-01-01 00:00:00 with zero microseconds),
and a non-matching text such as `2021-01-01` raises a `ValueError` that
propagates to the caller with the record unchanged. -/
theorem c9_timestamp (J : Type) (jsonLoads : String → Except PyErr J)
    (it : AlarmHistoryItem J) (w : String) (d : PyDatetime) (v : String)
    (hw : strptimeAlarmFormat w = some d) (hv : strptimeAlarmFormat v = none) :
    it.endElement jsonLoads "Timestamp" w =
      .ok { it with timestamp := some d } ∧
    it.endElement jsonLoads "Timestamp" v = .error (.valueError, it) ∧
    strptimeAlarmFormat "2021-01-01T00:00:00.000000Z" =
      some ⟨2021, 1, 1, 0, 0, 0, 0⟩ ∧
    strptimeAlarmFormat "2021-01-01" = none := by
  have h0 : ∀ u : String, it.endElement jsonLoads "Timestamp" u =
      (match strptimeAlarmFormat u with
       | some dd => Except.ok { it with timestamp := some dd }
       | none => Except.error (PyErr.valueError, it)) := fun u => rfl
  refine ⟨?_, ?_, rfl, rfl⟩
  · rw [h0, hw]
  · rw [h0, hv]

/-- Witness for C9 at the spec's two example timestamp strings. -/
theorem c9_timestamp_witness :
    (AlarmHistoryItem.init none : AlarmHistoryItem Unit).endElement
        (fun _ => Except.ok ()) "Timestamp" "2021-01-01T00:00:00.000000Z" =
      .ok { (AlarmHistoryItem.init none : AlarmHistoryItem Unit) with
              timestamp := some ⟨2021, 1, 1, 0, 0, 0, 0⟩ } ∧
    (AlarmHistoryItem.init none : AlarmHistoryItem Unit).endElement
        (fun _ => Except.ok ()) "Timestamp" "2021-01-01" =
      .error (.valueError, (AlarmHistoryItem.init none : AlarmHistoryItem Unit)) :=
  ⟨(c9_timestamp Unit (fun _ => Except.ok ()) (AlarmHistoryItem.init none)
      "2021-01-01T00:00:00.000000Z" ⟨2021, 1, 1, 0, 0, 0, 0⟩ "2021-01-01"
      rfl rfl).1,
   (c9_timestamp Unit (fun _ => Except.ok ()) (AlarmHistoryItem.init none)
      "2021-01-01T00:00:00.000000Z" ⟨2021, 1, 1, 0, 0, 0, 0⟩ "2021-01-01"
      rfl rfl).2.1⟩

/-- C10: constructed without an initial alarm action, a `MetricAlarm` starts
with distinct fresh empty `insufficient_data_actions` and `ok_actions`
sequences — so the corresponding add-methods succeed and append — while
`alarm_actions` is left unset (`None`); consequently `add_alarm_action` with
a non-empty ARN raises `AttributeError` instead of appending. -/
theorem c10_default_action_lists (connection : Option Nat)
    (name metric nameSpace statistic comparison : Option String)
    (threshold : Option Rat) (period evaluation_periods : Option Int)
    (actions_enabled : Option Bool) (dimensions : Option Dimensions)
    (s : String) (hs : s ≠ "") :
    (MetricAlarm.init connection name metric nameSpace statistic comparison
        threshold period evaluation_periods actions_enabled none
        dimensions).insufficient_data_actions.items = [] ∧
    (MetricAlarm.init connection name metric nameSpace statistic comparison
        threshold period evaluation_periods actions_enabled none
        dimensions).ok_actions.items = [] ∧
    (MetricAlarm.init connection name metric nameSpace statistic comparison
        threshold period evaluation_periods actions_enabled none
        dimensions).insufficient_data_actions.objId ≠
      (MetricAlarm.init connection name metric nameSpace statistic comparison
        threshold period evaluation_periods actions_enabled none
        dimensions).ok_actions.objId ∧
    (MetricAlarm.init connection name metric nameSpace statistic comparison
        threshold period evaluation_periods actions_enabled none
        dimensions).alarm_actions = none ∧
    ((MetricAlarm.init connection name metric nameSpace statistic comparison
        threshold period evaluation_periods actions_enabled none
        dimensions).add_insufficient_data_action
        (some s)).insufficient_data_actions.items = [s] ∧
    ((MetricAlarm.init connection name metric nameSpace statistic comparison
        threshold period evaluation_periods actions_enabled none
        dimensions).add_ok_action (some s)).ok_actions.items = [s] ∧
    (MetricAlarm.init connection name metric nameSpace statistic comparison
        threshold period evaluation_periods actions_enabled none
        dimensions).add_alarm_action (some s) =
      .error (.attributeError,
        { MetricAlarm.init connection name metric nameSpace statistic
            comparison threshold period evaluation_periods actions_enabled
            none dimensions with actions_enabled := .pyStr "true" }) := by
  refine ⟨rfl, rfl, ?_, rfl, ?_, ?_, ?_⟩
  · show (0 : Nat) ≠ 1
    decide
  · simp [MetricAlarm.add_insufficient_data_action, hs, MetricAlarm.init]
  · simp [MetricAlarm.add_ok_action, hs, MetricAlarm.init]
  · simp [MetricAlarm.add_alarm_action, hs, MetricAlarm.init]

/-- Witness for C10 with a concrete non-empty ARN on an otherwise empty
construction. -/
theorem c10_default_action_lists_witness :
    (MetricAlarm.init none none none none none none none none none none none
        none).add_alarm_action (some "arn:aws:sns:us-east-1:1234:t") =
      .error (.attributeError,
        { MetricAlarm.init none none none none none none none none none none
            none none with actions_enabled := .pyStr "true" }) :=
  (c10_default_action_lists none none none none none none none none none none
      none "arn:aws:sns:us-east-1:1234:t" (by decide)).2.2.2.2.2.2

end Alarm
